import Mathlib

/-!
Verification of the session lifecycle manager of this repository.

The core under verification is src/api/services/session_manager.py:
a registry mapping GUID-string session ids to per-session records
(SessionState), with expiry based on an idle timeout, a periodic
cleanup sweep, a session listing, and shutdown.  The request handler
src/api/routers/chat.py drives one agent turn per request and updates
per-conversation bookkeeping (dialogue_turn, running_total_cost_usd).

Modelling conventions:
- wall-clock time is an integer number of microseconds (the actual
  resolution of Python datetime values); timedelta(minutes=m) is
  m * 60000000 microseconds; every operation that calls
  datetime.now() receives the current time as an explicit argument
  (called now);
- the Python dict from id to record is an association list in
  insertion order; assignment replaces in place, del removes the key;
- Python exceptions raised by the registry are an error value returned
  next to the post-state, since a raise after a mutation (the expiry
  path deletes the record and then raises) keeps the mutation;
- the shared ClaudeSDKClient and the cleanup task are modelled by
  presence flags (Option Unit): claims here depend only on whether
  they exist, not on their behaviour.
-/

namespace SessionMgr

/-! ### Python uuid.UUID string parsing (identifier validation)

SessionManager._validate_guid calls uuid.UUID(session_id) and reports
success.  CPython's UUID(hex=...) constructor normalises the string by
deleting every occurrence of "urn:" and "uuid:", stripping leading and
trailing curly braces, deleting every hyphen, then requires the result
to be exactly 32 characters and converts it with int(s, 16); finally
the integer must lie in [0, 2^128).  int(s, 16) itself strips
surrounding whitespace and accepts an optional sign, an optional 0x
or 0X prefix, and hexadecimal digits with single underscores between
digits (one underscore directly after the 0x prefix is also allowed).
-/

/-- The character with code 123, an opening curly brace. -/
def openBrace : Char := Char.ofNat 123

/-- The character with code 125, a closing curly brace. -/
def closeBrace : Char := Char.ofNat 125

/-- True for a character that str.strip(braces) removes from the ends. -/
def isBraceChar (c : Char) : Bool := c == openBrace || c == closeBrace

/-- Is the first list a prefix of the second (on characters)? -/
def isPrefixList : List Char → List Char → Bool
  | [], _ => true
  | _ :: _, [] => false
  | p :: ps, c :: cs => p == c && isPrefixList ps cs

/-- Recursion core of removeOcc.  The fuel argument only forces
structural recursion; every step consumes at least one character, so
fuel equal to the length of the list is never exhausted. -/
def removeOccGo (p : Char) (ps : List Char) : Nat → List Char → List Char
  | 0, l => l
  | _ + 1, [] => []
  | fuel + 1, c :: cs =>
    if isPrefixList (p :: ps) (c :: cs) then
      removeOccGo p ps fuel (cs.drop ps.length)
    else
      c :: removeOccGo p ps fuel cs

/-- str.replace(pat, "") for a nonempty pattern p :: ps: delete every
leftmost, non-overlapping occurrence of the pattern. -/
def removeOcc (p : Char) (ps : List Char) (l : List Char) : List Char :=
  removeOccGo p ps l.length l

/-- str.strip("\x7b\x7d"): drop leading and trailing brace characters. -/
def stripBraces (cs : List Char) : List Char :=
  ((cs.dropWhile isBraceChar).reverse.dropWhile isBraceChar).reverse

/-- Hexadecimal digit test, as accepted by int(s, 16). -/
def isHexDig (c : Char) : Bool :=
  c.isDigit || ('a' ≤ c && c ≤ 'f') || ('A' ≤ c && c ≤ 'F')

/-- Numeric value of a hexadecimal digit. -/
def hexVal (c : Char) : Nat :=
  if c.isDigit then c.toNat - '0'.toNat
  else if 'a' ≤ c && c ≤ 'f' then c.toNat - 'a'.toNat + 10
  else c.toNat - 'A'.toNat + 10

/-- Digit run of int(s, 16) after the first digit: hexadecimal digits
with single underscores allowed between digits. -/
def hexDigitsGo (acc : Nat) : List Char → Option Nat
  | [] => some acc
  | '_' :: c :: cs =>
    if isHexDig c then hexDigitsGo (acc * 16 + hexVal c) cs else none
  | c :: cs =>
    if isHexDig c then hexDigitsGo (acc * 16 + hexVal c) cs else none

/-- Digit run of int(s, 16): nonempty, starts with a digit (never an
underscore), single underscores between digits. -/
def hexDigits : List Char → Option Nat
  | [] => none
  | c :: cs => if isHexDig c then hexDigitsGo (hexVal c) cs else none

/-- int(s, 16) after whitespace stripping: optional sign, optional 0x
or 0X prefix (with one optional underscore right after it), digits. -/
def pyIntHexCore (cs : List Char) : Option Int :=
  let signed : Int × List Char :=
    match cs with
    | '+' :: rest => (1, rest)
    | '-' :: rest => (-1, rest)
    | rest => (1, rest)
  let body : List Char :=
    match signed.2 with
    | '0' :: x :: rest =>
      if x == 'x' || x == 'X' then
        match rest with
        | '_' :: rest2 => rest2
        | _ => rest
      else '0' :: x :: rest
    | other => other
  match hexDigits body with
  | some v => some (signed.1 * (v : Int))
  | none => none

/-- Python int(s, 16): strip surrounding whitespace, then parse. -/
def pyIntHex (cs : List Char) : Option Int :=
  pyIntHexCore ((cs.dropWhile Char.isWhitespace).reverse.dropWhile
    Char.isWhitespace).reverse

/-- The 128-bit value uuid.UUID(session_id) denotes, or none when the
constructor raises.  Follows CPython uuid.UUID(hex=...): delete
"urn:" and "uuid:", strip braces, delete hyphens, require 32
characters, convert with int(_, 16), require the value in [0, 2^128).
-/
def pyUuidValue (session_id : String) : Option Int :=
  let h0 := removeOcc 'u' ['r', 'n', ':'] session_id.toList
  let h1 := removeOcc 'u' ['u', 'i', 'd', ':'] h0
  let h2 := stripBraces h1
  let h3 := removeOcc '-' [] h2
  if h3.length ≠ 32 then none
  else
    match pyIntHex h3 with
    | none => none
    | some v => if 0 ≤ v ∧ v < 2 ^ 128 then some v else none

/-- SessionManager._validate_guid: true when uuid.UUID(session_id)
succeeds. -/
def _validate_guid (session_id : String) : Bool :=
  (pyUuidValue session_id).isSome

/-! ### SessionState and the expiry predicate -/

/-- Module-level constant SESSION_TIMEOUT_MINUTES = 30. -/
def SESSION_TIMEOUT_MINUTES : ℕ := 30

/-- timedelta(minutes=m), in microseconds. -/
def timedeltaMinutes (m : ℕ) : ℤ := (m : ℤ) * 60000000

/-- SessionState: per-session record of session_manager.py.  The
asyncio.Lock field is omitted: no claim here depends on it. -/
structure SessionState where
  session_id : String
  last_accessed : ℤ
deriving Repr, DecidableEq

/-- SessionState.touch: set last_accessed to datetime.now(). -/
def SessionState.touch (st : SessionState) (now : ℤ) : SessionState :=
  { st with last_accessed := now }

/-- SessionState.is_expired: now - last_accessed > timedelta(minutes=
timeout_minutes), a strict comparison.  The Python default argument is
SESSION_TIMEOUT_MINUTES; callers inside the manager use the default. -/
def SessionState.is_expired (st : SessionState) (now : ℤ)
    (timeout_minutes : ℕ) : Bool :=
  decide (now - st.last_accessed > timedeltaMinutes timeout_minutes)

/-! ### Python dicts as association lists in insertion order -/

section Dict

variable {κ ν : Type} [DecidableEq κ]

/-- Dict lookup: the value at the key, if present. -/
def lookupM : List (κ × ν) → κ → Option ν
  | [], _ => none
  | (k, v) :: rest, key => if k = key then some v else lookupM rest key

/-- Dict assignment d[k] = v: replace in place when present, append
otherwise. -/
def insertM : List (κ × ν) → κ → ν → List (κ × ν)
  | [], key, v => [(key, v)]
  | (k, w) :: rest, key, v =>
    if k = key then (key, v) :: rest else (k, w) :: insertM rest key v

/-- Dict deletion del d[k]. -/
def eraseM (m : List (κ × ν)) (key : κ) : List (κ × ν) :=
  m.filter (fun p => p.1 ≠ key)

/-- Keys of the mapping are distinct, as in every Python dict. -/
def NodupKeys (m : List (κ × ν)) : Prop := (m.map Prod.fst).Nodup

instance decidableNodupKeys (m : List (κ × ν)) :
    Decidable (NodupKeys m) :=
  inferInstanceAs (Decidable (m.map Prod.fst).Nodup)

end Dict

/-- The dict from session id to SessionState, in insertion order. -/
abbrev SessionMap := List (String × SessionState)

/-! ### SessionManager -/

/-- Errors raised by SessionManager.get_or_create_session. -/
inductive SessionError where
  /-- InvalidSessionIdError, naming the offending session id. -/
  | invalidSessionId (session_id : String)
  /-- SessionExpiredError, naming the offending session id. -/
  | sessionExpired (session_id : String)
deriving Repr, DecidableEq

/-- SessionManager state: the shared client (present after
_ensure_client), the session mapping, and the cleanup task handle.
The locks and the stored ClaudeAgentOptions are omitted: no claim
here depends on them. -/
structure SessionManager where
  _client : Option Unit
  _sessions : SessionMap
  _cleanup_task : Option Unit
deriving Repr, DecidableEq

/-- SessionManager.__init__: no client, empty mapping, no task. -/
def SessionManager.init : SessionManager :=
  { _client := none, _sessions := [], _cleanup_task := none }

/-- SessionManager._ensure_client: connect the shared client when it
is not yet connected. -/
def _ensure_client (mgr : SessionManager) : SessionManager :=
  match mgr._client with
  | some _ => mgr
  | none => { mgr with _client := some () }

/-- SessionManager.get_or_create_session.  Returns the post-state next
to either the (state, session_id) pair or the raised error; the expiry
path both deletes the record and raises. -/
def get_or_create_session (mgr : SessionManager) (session_id : String)
    (now : ℤ) :
    SessionManager × Except SessionError (SessionState × String) :=
  if _validate_guid session_id = false then
    (mgr, .error (.invalidSessionId session_id))
  else
    let mgr1 := _ensure_client mgr
    match lookupM mgr1._sessions session_id with
    | some state =>
      if state.is_expired now SESSION_TIMEOUT_MINUTES then
        ({ mgr1 with _sessions := eraseM mgr1._sessions session_id },
         .error (.sessionExpired session_id))
      else
        let touched := state.touch now
        ({ mgr1 with _sessions := insertM mgr1._sessions session_id touched },
         .ok (touched, session_id))
    | none =>
      let state : SessionState := { session_id := session_id, last_accessed := now }
      ({ mgr1 with _sessions := insertM mgr1._sessions session_id state },
       .ok (state, session_id))

/-- One row of SessionManager.list_sessions. -/
structure SessionSummary where
  session_id : String
  last_accessed : ℤ
  is_expired : Bool
deriving Repr, DecidableEq

/-- SessionManager.list_sessions: a snapshot of every record, with its
expiry flag evaluated at now; returns the rows next to the (untouched)
manager state. -/
def list_sessions (mgr : SessionManager) (now : ℤ) :
    List SessionSummary × SessionManager :=
  (mgr._sessions.map (fun p =>
      { session_id := p.2.session_id
        last_accessed := p.2.last_accessed
        is_expired := p.2.is_expired now SESSION_TIMEOUT_MINUTES }),
   mgr)

/-- SessionManager.cleanup_expired_sessions: collect the ids of the
expired records, then delete each collected id. -/
def cleanup_expired_sessions (mgr : SessionManager) (now : ℤ) :
    SessionManager :=
  let expired_ids :=
    (mgr._sessions.filter
      (fun p => p.2.is_expired now SESSION_TIMEOUT_MINUTES)).map Prod.fst
  { mgr with _sessions := expired_ids.foldl eraseM mgr._sessions }

/-- SessionManager.start_cleanup_task: record the task handle. -/
def start_cleanup_task (mgr : SessionManager) : SessionManager :=
  { mgr with _cleanup_task := some () }

/-- SessionManager.shutdown: cancel and clear the cleanup task,
disconnect and clear the client (errors during disconnect are caught),
then clear the mapping. -/
def shutdown (mgr : SessionManager) : SessionManager :=
  let m1 := { mgr with _cleanup_task := none }
  let m2 := { m1 with _client := none }
  { m2 with _sessions := [] }

/-! ### The conversation-number iteration driven by chat.py

src/api/routers/chat.py resolves sessions through create_session and
get_session of a second iteration of the session manager that is not
part of src/ (chat.py is its caller; it exposes records with
conversation_no, subject, running_total_cost_usd and dialogue_turn
fields and raises KeyError for an unknown conversation_no, which
chat.py maps to HTTP 404).  The registry side of that iteration is
modelled from the spec below; the per-turn bookkeeping is embedded
from the chat.py code itself.
-/

/-- Modelled from the spec: the SessionRecord of the iteration driven
by chat.py; the missing piece is that iteration's session-manager
module.  Field names and reads/writes are those chat.py uses;
turn_count and running_cost of the spec are dialogue_turn and
running_total_cost_usd.  The per-record lock is omitted. -/
structure ConvSessionState where
  conversation_no : ℤ
  subject : String
  running_total_cost_usd : ℚ
  dialogue_turn : ℤ
  last_accessed : ℤ
deriving Repr, DecidableEq

/-- Modelled from the spec: the registry state of the chat.py
iteration, a mapping from conversation_no to its record. -/
structure ConvSessionManager where
  _sessions : List (ℤ × ConvSessionState)
deriving Repr, DecidableEq

/-- Errors of the chat.py iteration's resolution. -/
inductive ConvError where
  /-- KeyError for an unknown conversation_no (HTTP 404 in chat.py). -/
  | notFound (conversation_no : ℤ)
  /-- Expired, naming the conversation_no. -/
  | expired (conversation_no : ℤ)
deriving Repr, DecidableEq

/-- Modelled from the spec: fresh-identifier allocation for the
no-id-supplied path, one of the two schemes section 4.1 allows:
max(existing ids) + 1, computed while holding the registry mutex. -/
def freshConvNo (m : List (ℤ × ConvSessionState)) : ℤ :=
  (m.map Prod.fst).foldl max 0 + 1

/-- Modelled from the spec: create_session of the chat.py iteration
("If id is absent: allocate a fresh unique identifier, create a new
SessionRecord (turn_count=0, running_cost=0, last_accessed=now),
insert it, ...  Returns the new id").  The subject argument is what
chat.py passes; the connection handle is omitted. -/
def create_session (mgr : ConvSessionManager) (subject : String)
    (now : ℤ) : ConvSessionManager × ConvSessionState :=
  let no := freshConvNo mgr._sessions
  let st : ConvSessionState :=
    { conversation_no := no, subject := subject,
      running_total_cost_usd := 0, dialogue_turn := 0,
      last_accessed := now }
  ({ _sessions := insertM mgr._sessions no st }, st)

/-- Modelled from the spec: get_session of the chat.py iteration.
Not found: fail with NotFound (chat.py's KeyError, the reject-unknown
policy).  Found and expired: remove and fail with Expired.  Found and
live: update last_accessed and return the record. -/
def get_session (mgr : ConvSessionManager) (conversation_no : ℤ)
    (now : ℤ) :
    ConvSessionManager × Except ConvError ConvSessionState :=
  match lookupM mgr._sessions conversation_no with
  | none => (mgr, .error (.notFound conversation_no))
  | some st =>
    if decide (now - st.last_accessed >
        timedeltaMinutes SESSION_TIMEOUT_MINUTES) then
      ({ _sessions := eraseM mgr._sessions conversation_no },
       .error (.expired conversation_no))
    else
      let touched := { st with last_accessed := now }
      ({ _sessions := insertM mgr._sessions conversation_no touched },
       .ok touched)

/-! ### Per-turn bookkeeping, embedded from chat.py handle_chat -/

/-- One message yielded by client.receive_response(), as chat.py
distinguishes them: an AssistantMessage with its text blocks, the
final ResultMessage carrying total_cost_usd, or anything else. -/
inductive SdkMessage where
  | assistantMsg (texts : List String)
  | resultMsg (total_cost_usd : ℚ)
  | otherMsg
deriving Repr, DecidableEq

/-- The per-message update of handle_chat's response loop (chat.py
lines 103-113): a ResultMessage adds total_cost_usd to
running_total_cost_usd and increments dialogue_turn by 1; every other
message leaves the record unchanged. -/
def handle_chat_step (st : ConvSessionState) :
    SdkMessage → ConvSessionState
  | .resultMsg cost =>
    { st with
        running_total_cost_usd := st.running_total_cost_usd + cost,
        dialogue_turn := st.dialogue_turn + 1 }
  | _ => st

/-- The record after handle_chat consumes a complete response
stream. -/
def handle_chat_turn (st : ConvSessionState) (msgs : List SdkMessage) :
    ConvSessionState :=
  msgs.foldl handle_chat_step st

/-- The record after one handle_chat request past resolution: either
the stream completed (a successful turn), or client.query or
receive_response raised first (a failed turn, which chat.py catches
and maps to HTTP 422 without touching the record). -/
def handle_chat_outcome (st : ConvSessionState)
    (outcome : Except String (List SdkMessage)) : ConvSessionState :=
  match outcome with
  | .error _ => st
  | .ok msgs => handle_chat_turn st msgs

/-- Is a message the ResultMessage of the stream? -/
def SdkMessage.isResult : SdkMessage → Bool
  | .resultMsg _ => true
  | _ => false

/-- Total reported cost over a message stream. -/
def resultCostSum (msgs : List SdkMessage) : ℚ :=
  msgs.foldl
    (fun acc m => match m with | .resultMsg c => acc + c | _ => acc) 0

/-! ### Concrete fixtures used by witness theorems -/

/-- A well-formed GUID string (canonical hyphenated form). -/
def wGuid : String := "6f8fad5b-d9cb-469f-a165-70867728950e"

/-- The same GUID value written in upper case: a different string. -/
def wGuidUpper : String := "6F8FAD5B-D9CB-469F-A165-70867728950E"

/-- A manager holding one session resolved at time 0 under wGuid. -/
def wMgr : SessionManager :=
  { _client := some ()
    _sessions := [(wGuid, { session_id := wGuid, last_accessed := 0 })]
    _cleanup_task := none }

/-- A manager holding an expired record (wGuid, resolved at time 0)
and a live one (wGuidUpper, resolved at 30 minutes), both viewed at
time 30 minutes + 1 microsecond. -/
def wMgr2 : SessionManager :=
  { _client := some ()
    _sessions :=
      [(wGuid, { session_id := wGuid, last_accessed := 0 }),
       (wGuidUpper,
        { session_id := wGuidUpper, last_accessed := 1800000000 })]
    _cleanup_task := some () }

/-- A conversation record before a turn. -/
def wConv : ConvSessionState :=
  { conversation_no := 1, subject := "greetings",
    running_total_cost_usd := 0, dialogue_turn := 0,
    last_accessed := 0 }

/-! ### Lemmas about dict operations -/

section DictLemmas

variable {κ ν : Type} [DecidableEq κ]

theorem lookupM_insertM_self (m : List (κ × ν)) (k : κ) (v : ν) :
    lookupM (insertM m k v) k = some v := by
  induction m with
  | nil => simp [insertM, lookupM]
  | cons p rest ih =>
    by_cases h : p.1 = k
    · simp [insertM, h, lookupM]
    · simp [insertM, h, lookupM, ih]

theorem lookupM_insertM_of_ne (m : List (κ × ν)) {k k' : κ} (v : ν)
    (h : k' ≠ k) : lookupM (insertM m k v) k' = lookupM m k' := by
  induction m with
  | nil => simp [insertM, lookupM, Ne.symm h]
  | cons p rest ih =>
    obtain ⟨a, b⟩ := p
    by_cases hp : a = k
    · subst hp
      simp [insertM, lookupM, Ne.symm h]
    · simp [insertM, hp, lookupM, ih]

theorem lookupM_eraseM_self (m : List (κ × ν)) (k : κ) :
    lookupM (eraseM m k) k = none := by
  induction m with
  | nil => simp [eraseM, lookupM]
  | cons p rest ih =>
    obtain ⟨a, b⟩ := p
    by_cases h : a = k
    · simpa [eraseM, h] using ih
    · simpa [eraseM, h, lookupM] using ih

theorem lookupM_eraseM_of_ne (m : List (κ × ν)) {k k' : κ}
    (h : k' ≠ k) : lookupM (eraseM m k) k' = lookupM m k' := by
  induction m with
  | nil => simp [eraseM, lookupM]
  | cons p rest ih =>
    obtain ⟨a, b⟩ := p
    by_cases hp : a = k
    · subst hp
      simp [eraseM, List.filter_cons, lookupM, Ne.symm h]
      simpa [eraseM] using ih
    · simp [eraseM, List.filter_cons, hp, lookupM]
      by_cases hk : a = k'
      · simp [hk]
      · simpa [eraseM, hk] using ih

theorem lookupM_mem {m : List (κ × ν)} {k : κ} {v : ν}
    (h : lookupM m k = some v) : (k, v) ∈ m := by
  induction m with
  | nil => simp [lookupM] at h
  | cons p rest ih =>
    obtain ⟨a, b⟩ := p
    by_cases hp : a = k
    · subst hp
      simp only [lookupM, if_pos, Option.some.injEq] at h
      subst h
      exact List.mem_cons_self _ _
    · simp only [lookupM, hp, if_neg, not_false_iff, if_false] at h
      exact List.mem_cons_of_mem _ (ih h)

theorem mem_lookupM {m : List (κ × ν)} (hnd : NodupKeys m) {k : κ}
    {v : ν} (hm : (k, v) ∈ m) : lookupM m k = some v := by
  induction m with
  | nil => simp at hm
  | cons p rest ih =>
    obtain ⟨a, b⟩ := p
    have hnd' : (a :: rest.map Prod.fst).Nodup := by
      simpa [NodupKeys] using hnd
    rcases List.mem_cons.mp hm with h | h
    · cases h
      simp [lookupM]
    · have hk : a ≠ k := by
        intro hkk
        subst hkk
        have hmem : a ∈ rest.map Prod.fst :=
          List.mem_map.mpr ⟨(a, v), h, rfl⟩
        exact (List.nodup_cons.mp hnd').1 hmem
      have hrest : NodupKeys rest := by
        have := (List.nodup_cons.mp hnd').2
        simpa [NodupKeys] using this
      simp [lookupM, hk, ih hrest h]

theorem lookupM_filterKey (m : List (κ × ν)) (f : κ → Bool) (k : κ) :
    lookupM (m.filter fun p => f p.1) k =
      if f k = true then lookupM m k else none := by
  induction m with
  | nil => simp [lookupM]
  | cons p rest ih =>
    obtain ⟨a, b⟩ := p
    by_cases hf : f a = true
    · by_cases hk : a = k
      · subst hk
        simp [List.filter_cons, hf, lookupM]
      · simp [List.filter_cons, hf, lookupM, hk, ih]
    · by_cases hk : a = k
      · subst hk
        simp [List.filter_cons, hf, lookupM, ih]
      · simp [List.filter_cons, hf, lookupM, hk, ih]

theorem eraseM_eq_filter (m : List (κ × ν)) (k : κ) :
    eraseM m k = m.filter fun p => decide (p.1 ≠ k) := rfl

theorem foldl_eraseM_eq_filter (L : List κ) (m : List (κ × ν)) :
    L.foldl eraseM m = m.filter fun p => decide (p.1 ∉ L) := by
  induction L generalizing m with
  | nil => simp
  | cons a L ih =>
    rw [List.foldl_cons, ih, eraseM_eq_filter, List.filter_filter]
    apply List.filter_congr
    intro p _
    by_cases h1 : p.1 = a <;> by_cases h2 : p.1 ∈ L <;>
      simp [h1, h2]

end DictLemmas

/-! ### Branch lemmas for get_or_create_session -/

theorem ensure_client_sessions (mgr : SessionManager) :
    (_ensure_client mgr)._sessions = mgr._sessions := by
  unfold _ensure_client
  cases mgr._client <;> rfl

theorem ensure_client_client (mgr : SessionManager) :
    (_ensure_client mgr)._client = some () := by
  unfold _ensure_client
  cases h : mgr._client with
  | none => rfl
  | some u => cases u; simp [h]

theorem resolve_invalid {sid : String} (mgr : SessionManager)
    (now : ℤ) (hval : _validate_guid sid = false) :
    get_or_create_session mgr sid now =
      (mgr, .error (.invalidSessionId sid)) := by
  simp [get_or_create_session, hval]

theorem resolve_expired {sid : String} (mgr : SessionManager)
    (now : ℤ) {st : SessionState}
    (hval : _validate_guid sid = true)
    (hlook : lookupM mgr._sessions sid = some st)
    (hexp : st.is_expired now SESSION_TIMEOUT_MINUTES = true) :
    get_or_create_session mgr sid now =
      ({ _ensure_client mgr with _sessions := eraseM mgr._sessions sid },
       .error (.sessionExpired sid)) := by
  simp only [get_or_create_session, hval, Bool.true_eq_false,
    if_neg, ite_false, ensure_client_sessions, hlook, hexp, if_pos]

theorem resolve_live {sid : String} (mgr : SessionManager)
    (now : ℤ) {st : SessionState}
    (hval : _validate_guid sid = true)
    (hlook : lookupM mgr._sessions sid = some st)
    (hexp : st.is_expired now SESSION_TIMEOUT_MINUTES = false) :
    get_or_create_session mgr sid now =
      ({ _ensure_client mgr with
          _sessions := insertM mgr._sessions sid (st.touch now) },
       .ok (st.touch now, sid)) := by
  simp only [get_or_create_session, hval, Bool.true_eq_false,
    if_neg, ite_false, ensure_client_sessions, hlook, hexp,
    Bool.false_eq_true, if_false]

theorem resolve_new {sid : String} (mgr : SessionManager)
    (now : ℤ) (hval : _validate_guid sid = true)
    (hlook : lookupM mgr._sessions sid = none) :
    get_or_create_session mgr sid now =
      ({ _ensure_client mgr with
          _sessions :=
            insertM mgr._sessions sid
              { session_id := sid, last_accessed := now } },
       .ok ({ session_id := sid, last_accessed := now }, sid)) := by
  simp only [get_or_create_session, hval, Bool.true_eq_false,
    if_neg, ite_false, ensure_client_sessions, hlook]

/-! ### Further helper lemmas -/

theorem lookupM_eq_none {κ ν : Type} [DecidableEq κ]
    {m : List (κ × ν)} {k : κ} (h : ∀ p ∈ m, p.1 ≠ k) :
    lookupM m k = none := by
  induction m with
  | nil => rfl
  | cons p rest ih =>
    have hp : p.1 ≠ k := h p (List.mem_cons_self _ _)
    simp only [lookupM, hp, if_neg, not_false_iff, if_false]
    exact ih fun q hq => h q (List.mem_cons_of_mem _ hq)

theorem foldl_max_le_init (l : List ℤ) (a : ℤ) :
    a ≤ l.foldl max a := by
  induction l generalizing a with
  | nil => simp
  | cons x xs ih => exact le_trans (le_max_left a x) (ih (max a x))

theorem mem_le_foldl_max :
    ∀ (l : List ℤ) (a : ℤ) {x : ℤ}, x ∈ l → x ≤ l.foldl max a
  | [], _, _, hx => absurd hx (List.not_mem_nil _)
  | y :: ys, a, x, hx => by
    rcases List.mem_cons.mp hx with rfl | h
    · exact le_trans (le_max_right a x) (foldl_max_le_init ys (max a x))
    · exact mem_le_foldl_max ys (max a y) h

theorem lookupM_freshConvNo (m : List (ℤ × ConvSessionState)) :
    lookupM m (freshConvNo m) = none := by
  apply lookupM_eq_none
  intro p hp hk
  have hle : p.1 ≤ (m.map Prod.fst).foldl max 0 :=
    mem_le_foldl_max _ 0 (List.mem_map.mpr ⟨p, hp, rfl⟩)
  rw [hk] at hle
  simp only [freshConvNo] at hle
  omega

theorem handle_chat_step_not_result (st : ConvSessionState)
    {m : SdkMessage} (hm : m.isResult = false) :
    handle_chat_step st m = st := by
  cases m with
  | resultMsg c => simp [SdkMessage.isResult] at hm
  | assistantMsg texts => rfl
  | otherMsg => rfl

theorem handle_chat_turn_no_result (st : ConvSessionState)
    (msgs : List SdkMessage)
    (h : msgs.filter SdkMessage.isResult = []) :
    handle_chat_turn st msgs = st := by
  induction msgs generalizing st with
  | nil => rfl
  | cons m rest ih =>
    cases hm : m.isResult with
    | true => simp [List.filter_cons, hm] at h
    | false =>
      rw [List.filter_cons, if_neg (by simp [hm])] at h
      rw [handle_chat_turn, List.foldl_cons,
        handle_chat_step_not_result st hm]
      exact ih st h

theorem handle_chat_turn_single_result (st : ConvSessionState)
    (msgs : List SdkMessage) (c : ℚ)
    (h : msgs.filter SdkMessage.isResult = [SdkMessage.resultMsg c]) :
    handle_chat_turn st msgs =
      { st with
          running_total_cost_usd := st.running_total_cost_usd + c,
          dialogue_turn := st.dialogue_turn + 1 } := by
  induction msgs generalizing st with
  | nil => simp at h
  | cons m rest ih =>
    cases hm : m.isResult with
    | false =>
      rw [List.filter_cons, if_neg (by simp [hm])] at h
      rw [handle_chat_turn, List.foldl_cons,
        handle_chat_step_not_result st hm]
      exact ih st h
    | true =>
      cases m with
      | assistantMsg texts => simp [SdkMessage.isResult] at hm
      | otherMsg => simp [SdkMessage.isResult] at hm
      | resultMsg c0 =>
        rw [List.filter_cons, if_pos (by simp [SdkMessage.isResult])] at h
        have hc : c0 = c := by
          have := List.head_eq_of_cons_eq h
          simpa using this
        have hrest : rest.filter SdkMessage.isResult = [] :=
          List.tail_eq_of_cons_eq h
        subst hc
        rw [handle_chat_turn, List.foldl_cons]
        exact handle_chat_turn_no_result _ rest hrest

set_option maxRecDepth 16000

/-! ### The claims -/

/-- C1: if the supplied id is present and its record is expired,
resolution removes the record from the mapping and fails with a
SessionExpiredError naming that id; the record is not returned, and a
later resolution of the same literal id behaves as a fresh create
(its record starts from the new resolution time), never continuing
the old record. -/
theorem expired_session_removed_and_error
    (mgr : SessionManager) (sid : String) (now now2 : ℤ)
    (st : SessionState)
    (hval : _validate_guid sid = true)
    (hlook : lookupM mgr._sessions sid = some st)
    (hexp : st.is_expired now SESSION_TIMEOUT_MINUTES = true) :
    (get_or_create_session mgr sid now).2 =
        .error (.sessionExpired sid) ∧
    lookupM (get_or_create_session mgr sid now).1._sessions sid = none ∧
    (get_or_create_session
        (get_or_create_session mgr sid now).1 sid now2).2 =
      .ok ({ session_id := sid, last_accessed := now2 }, sid) := by
  rw [resolve_expired mgr now hval hlook hexp]
  refine ⟨rfl, lookupM_eraseM_self _ _, ?_⟩
  rw [resolve_new _ now2 hval (lookupM_eraseM_self _ _)]

/-- C1 witness: a manager with one record resolved at time 0, resolved
again 30 minutes + 1 microsecond later. -/
theorem expired_session_removed_and_error_witness :
    (get_or_create_session wMgr wGuid 1800000001).2 =
        .error (.sessionExpired wGuid) ∧
    lookupM (get_or_create_session wMgr wGuid 1800000001).1._sessions
        wGuid = none ∧
    (get_or_create_session
        (get_or_create_session wMgr wGuid 1800000001).1 wGuid
        1800000002).2 =
      .ok ({ session_id := wGuid, last_accessed := 1800000002 }, wGuid) :=
  expired_session_removed_and_error wMgr wGuid 1800000001 1800000002
    { session_id := wGuid, last_accessed := 0 }
    (by decide) (by decide) (by decide)

/-- C2: a record is expired exactly when now minus last_accessed
strictly exceeds the idle timeout, whose default is 30 minutes: for a
record last resolved at T0, is_expired is true at T0 + timeout + eps
and false at T0 + timeout - eps for every eps > 0; accordingly
resolution at T0 + 30min + eps fails with SessionExpiredError while
resolution at T0 + 30min - eps succeeds, updates last_accessed to now,
and both returns and stores that same touched record. -/
theorem expiry_strict_boundary_and_refresh
    (τ : ℕ) (ε now0 : ℤ) (mgr : SessionManager) (sid : String)
    (st : SessionState)
    (hε : 0 < ε)
    (hval : _validate_guid sid = true)
    (hlook : lookupM mgr._sessions sid = some st) :
    SESSION_TIMEOUT_MINUTES = 30 ∧
    (st.is_expired now0 τ = true ↔
      now0 - st.last_accessed > timedeltaMinutes τ) ∧
    st.is_expired (st.last_accessed + timedeltaMinutes τ + ε) τ = true ∧
    st.is_expired (st.last_accessed + timedeltaMinutes τ - ε) τ = false ∧
    (get_or_create_session mgr sid
        (st.last_accessed + timedeltaMinutes SESSION_TIMEOUT_MINUTES
          + ε)).2 =
      .error (.sessionExpired sid) ∧
    (get_or_create_session mgr sid
        (st.last_accessed + timedeltaMinutes SESSION_TIMEOUT_MINUTES
          - ε)).2 =
      .ok (st.touch (st.last_accessed
          + timedeltaMinutes SESSION_TIMEOUT_MINUTES - ε), sid) ∧
    lookupM (get_or_create_session mgr sid
        (st.last_accessed + timedeltaMinutes SESSION_TIMEOUT_MINUTES
          - ε)).1._sessions sid =
      some (st.touch (st.last_accessed
          + timedeltaMinutes SESSION_TIMEOUT_MINUTES - ε)) ∧
    (st.touch (st.last_accessed
        + timedeltaMinutes SESSION_TIMEOUT_MINUTES - ε)).session_id =
      st.session_id := by
  have hlate : st.is_expired
      (st.last_accessed + timedeltaMinutes SESSION_TIMEOUT_MINUTES + ε)
      SESSION_TIMEOUT_MINUTES = true := by
    simp only [SessionState.is_expired, timedeltaMinutes,
      decide_eq_true_eq]
    omega
  have hearly : st.is_expired
      (st.last_accessed + timedeltaMinutes SESSION_TIMEOUT_MINUTES - ε)
      SESSION_TIMEOUT_MINUTES = false := by
    simp only [SessionState.is_expired, timedeltaMinutes,
      decide_eq_false_iff_not]
    omega
  refine ⟨rfl, ?_, ?_, ?_, ?_, ?_, ?_, rfl⟩
  · simp only [SessionState.is_expired, decide_eq_true_eq]
  · simp only [SessionState.is_expired, decide_eq_true_eq]
    omega
  · simp only [SessionState.is_expired, decide_eq_false_iff_not]
    omega
  · rw [resolve_expired mgr _ hval hlook hlate]
  · rw [resolve_live mgr _ hval hlook hearly]
  · rw [resolve_live mgr _ hval hlook hearly]
    exact lookupM_insertM_self _ _ _

/-- C2 witness: the boundary at timeout 30 minutes with eps = one
microsecond, on a record resolved at time 0. -/
theorem expiry_strict_boundary_and_refresh_witness :
    SESSION_TIMEOUT_MINUTES = 30 ∧
    (SessionState.is_expired { session_id := wGuid, last_accessed := 0 }
        1800000001 30 = true ↔
      1800000001 - ({ session_id := wGuid, last_accessed := 0 } :
        SessionState).last_accessed > timedeltaMinutes 30) ∧
    SessionState.is_expired { session_id := wGuid, last_accessed := 0 }
        (0 + timedeltaMinutes 30 + 1) 30 = true ∧
    SessionState.is_expired { session_id := wGuid, last_accessed := 0 }
        (0 + timedeltaMinutes 30 - 1) 30 = false ∧
    (get_or_create_session wMgr wGuid
        (0 + timedeltaMinutes SESSION_TIMEOUT_MINUTES + 1)).2 =
      .error (.sessionExpired wGuid) ∧
    (get_or_create_session wMgr wGuid
        (0 + timedeltaMinutes SESSION_TIMEOUT_MINUTES - 1)).2 =
      .ok (SessionState.touch { session_id := wGuid, last_accessed := 0 }
          (0 + timedeltaMinutes SESSION_TIMEOUT_MINUTES - 1), wGuid) ∧
    lookupM (get_or_create_session wMgr wGuid
        (0 + timedeltaMinutes SESSION_TIMEOUT_MINUTES - 1)).1._sessions
        wGuid =
      some (SessionState.touch { session_id := wGuid, last_accessed := 0 }
          (0 + timedeltaMinutes SESSION_TIMEOUT_MINUTES - 1)) ∧
    (SessionState.touch { session_id := wGuid, last_accessed := 0 }
        (0 + timedeltaMinutes SESSION_TIMEOUT_MINUTES - 1)).session_id =
      ({ session_id := wGuid, last_accessed := 0 } : SessionState).session_id :=
  expiry_strict_boundary_and_refresh 30 1 1800000001 wMgr wGuid
    { session_id := wGuid, last_accessed := 0 }
    (by decide) (by decide) (by decide)

/-- C3: a session id that uuid.UUID cannot parse makes resolution fail
with an InvalidSessionIdError naming the value, and the whole manager
state, its session mapping included, is returned unchanged. -/
theorem invalid_id_rejected_mapping_untouched
    (mgr : SessionManager) (sid : String) (now : ℤ)
    (hval : _validate_guid sid = false) :
    get_or_create_session mgr sid now =
      (mgr, .error (.invalidSessionId sid)) :=
  resolve_invalid mgr now hval

/-- C3 witness: the malformed id "not-a-guid" against a nonempty
manager. -/
theorem invalid_id_rejected_mapping_untouched_witness :
    get_or_create_session wMgr "not-a-guid" 5 =
      (wMgr, .error (.invalidSessionId "not-a-guid")) :=
  invalid_id_rejected_mapping_untouched wMgr "not-a-guid" 5 (by decide)

/-- C4: a well-formed id that is not in the mapping is handled by two
distinct named behaviours: get_or_create_session (session_manager.py)
creates a record keyed by the exact supplied id with last_accessed set
to now and returns that record, while get_session (the iteration
chat.py calls; NotFound policy) fails with NotFound naming the id and
leaves the registry unchanged. -/
theorem unknown_id_create_or_notfound
    (mgr : SessionManager) (sid : String) (now : ℤ)
    (cm : ConvSessionManager) (cno : ℤ) (now2 : ℤ)
    (hval : _validate_guid sid = true)
    (hlook : lookupM mgr._sessions sid = none)
    (hclook : lookupM cm._sessions cno = none) :
    (get_or_create_session mgr sid now).2 =
        .ok ({ session_id := sid, last_accessed := now }, sid) ∧
    lookupM (get_or_create_session mgr sid now).1._sessions sid =
        some { session_id := sid, last_accessed := now } ∧
    get_session cm cno now2 = (cm, .error (.notFound cno)) := by
  rw [resolve_new mgr now hval hlook]
  refine ⟨rfl, lookupM_insertM_self _ _ _, ?_⟩
  simp [get_session, hclook]

/-- C4 witness: a fresh well-formed id against the initial manager,
and an unknown conversation number against an empty registry. -/
theorem unknown_id_create_or_notfound_witness :
    (get_or_create_session SessionManager.init wGuid 7).2 =
        .ok ({ session_id := wGuid, last_accessed := 7 }, wGuid) ∧
    lookupM (get_or_create_session SessionManager.init wGuid 7).1._sessions
        wGuid = some { session_id := wGuid, last_accessed := 7 } ∧
    get_session { _sessions := [] } 42 9 =
      ({ _sessions := [] }, .error (.notFound 42)) :=
  unknown_id_create_or_notfound SessionManager.init wGuid 7
    { _sessions := [] } 42 9 (by decide) (by decide) (by decide)

/-- C5: the conversation record carries running_total_cost_usd and
dialogue_turn; a completed turn whose stream reports exactly one
ResultMessage with cost c increments dialogue_turn by exactly 1 and
running_total_cost_usd by exactly c, and a failed turn leaves the
record, both fields included, unchanged. -/
theorem turn_bookkeeping
    (st : ConvSessionState) (msgs : List SdkMessage) (c : ℚ) (e : String)
    (hone : msgs.filter SdkMessage.isResult = [SdkMessage.resultMsg c]) :
    (handle_chat_turn st msgs).running_total_cost_usd =
        st.running_total_cost_usd + c ∧
    (handle_chat_turn st msgs).dialogue_turn = st.dialogue_turn + 1 ∧
    handle_chat_outcome st (.error e) = st := by
  rw [handle_chat_turn_single_result st msgs c hone]
  exact ⟨rfl, rfl, rfl⟩

/-- C5 witness: a stream of one assistant message and one result
message of cost 3, and a failed turn. -/
theorem turn_bookkeeping_witness :
    (handle_chat_turn wConv
        [.assistantMsg ["hello"], .resultMsg 3]).running_total_cost_usd =
      wConv.running_total_cost_usd + 3 ∧
    (handle_chat_turn wConv
        [.assistantMsg ["hello"], .resultMsg 3]).dialogue_turn =
      wConv.dialogue_turn + 1 ∧
    handle_chat_outcome wConv (.error "boom") = wConv :=
  turn_bookkeeping wConv [.assistantMsg ["hello"], .resultMsg 3] 3 "boom"
    (by decide)

/-- C6: resolution with no supplied id allocates an identifier that is
not in the mapping, creates a record with dialogue_turn = 0,
running_total_cost_usd = 0 and last_accessed = now, inserts it under
the new id, and returns it. -/
theorem fresh_session_creation
    (cm : ConvSessionManager) (subject : String) (now : ℤ) :
    lookupM cm._sessions
        (create_session cm subject now).2.conversation_no = none ∧
    (create_session cm subject now).2 =
      { conversation_no := freshConvNo cm._sessions, subject := subject,
        running_total_cost_usd := 0, dialogue_turn := 0,
        last_accessed := now } ∧
    lookupM (create_session cm subject now).1._sessions
        (create_session cm subject now).2.conversation_no =
      some (create_session cm subject now).2 := by
  refine ⟨?_, rfl, ?_⟩
  · exact lookupM_freshConvNo _
  · exact lookupM_insertM_self _ _ _

/-- C7: one sweep removes exactly the expired sessions: a record
expired at sweep time is gone afterwards, a record not expired is
still there completely unchanged, and no id not previously present
appears. -/
theorem cleanup_sweeps_exactly_expired
    (mgr : SessionManager) (now : ℤ) (sid : String)
    (hnd : NodupKeys mgr._sessions) :
    lookupM (cleanup_expired_sessions mgr now)._sessions sid =
      match lookupM mgr._sessions sid with
      | none => none
      | some st =>
        if st.is_expired now SESSION_TIMEOUT_MINUTES = true then none
        else some st := by
  have hrw :
      (cleanup_expired_sessions mgr now)._sessions =
        mgr._sessions.filter fun p =>
          decide (p.1 ∉
            ((mgr._sessions.filter fun p =>
                p.2.is_expired now SESSION_TIMEOUT_MINUTES).map
              Prod.fst)) := by
    show List.foldl eraseM mgr._sessions
        ((mgr._sessions.filter fun p =>
            p.2.is_expired now SESSION_TIMEOUT_MINUTES).map Prod.fst) = _
    exact foldl_eraseM_eq_filter _ _
  rw [hrw,
    lookupM_filterKey mgr._sessions
      (fun k => decide (k ∉
        ((mgr._sessions.filter fun p =>
            p.2.is_expired now SESSION_TIMEOUT_MINUTES).map Prod.fst)))
      sid]
  cases hlook : lookupM mgr._sessions sid with
  | none =>
    cases hmem : decide (sid ∉
        ((mgr._sessions.filter fun p =>
            p.2.is_expired now SESSION_TIMEOUT_MINUTES).map Prod.fst)) with
    | true => simp [hmem, hlook]
    | false => simp [hmem]
  | some st =>
    cases hexp : st.is_expired now SESSION_TIMEOUT_MINUTES with
    | true =>
      have hmem : sid ∈
          (mgr._sessions.filter fun p =>
            p.2.is_expired now SESSION_TIMEOUT_MINUTES).map Prod.fst :=
        List.mem_map.mpr
          ⟨(sid, st),
           List.mem_filter.mpr ⟨lookupM_mem hlook, by simpa using hexp⟩,
           rfl⟩
      simp [hmem, hexp]
    | false =>
      have hnotmem : sid ∉
          (mgr._sessions.filter fun p =>
            p.2.is_expired now SESSION_TIMEOUT_MINUTES).map Prod.fst := by
        intro hmem
        rcases List.mem_map.mp hmem with ⟨⟨a, b⟩, hpf, hps⟩
        have ha : a = sid := hps
        subst ha
        rcases List.mem_filter.mp hpf with ⟨hpm, hpe⟩
        have hb : lookupM mgr._sessions a = some b := mem_lookupM hnd hpm
        rw [hlook] at hb
        injection hb with hb
        subst hb
        have hst : st.is_expired now SESSION_TIMEOUT_MINUTES = true := by
          simpa using hpe
        rw [hexp] at hst
        exact Bool.false_ne_true hst
      simp [hnotmem, hlook, hexp]

/-- C7 witness: a sweep over one expired and one live record at 30
minutes + 1 microsecond; instantiated at the expired id. -/
theorem cleanup_sweeps_exactly_expired_witness :
    lookupM (cleanup_expired_sessions wMgr2 1800000001)._sessions wGuid =
      match lookupM wMgr2._sessions wGuid with
      | none => none
      | some st =>
        if st.is_expired 1800000001 SESSION_TIMEOUT_MINUTES = true
        then none else some st :=
  cleanup_sweeps_exactly_expired wMgr2 1800000001 wGuid (by decide)

/-- C8: shutdown leaves no cleanup task, no client and an empty
mapping, and running shutdown again from that state yields exactly the
same state. -/
theorem shutdown_clears_state_idempotent (mgr : SessionManager) :
    (shutdown mgr)._cleanup_task = none ∧
    (shutdown mgr)._client = none ∧
    (shutdown mgr)._sessions = [] ∧
    shutdown (shutdown mgr) = shutdown mgr :=
  ⟨rfl, rfl, rfl, rfl⟩

/-- C9: validation accepts exactly the strings uuid.UUID parses
(by definition of _validate_guid), and the raw string is the mapping
key: two distinct strings denoting the same UUID value, resolved one
after the other from the initial state, produce two separate records
under the two exact strings, with distinct stored ids. -/
theorem raw_string_keys_distinct_records
    (s1 s2 : String) (now1 now2 : ℤ)
    (hne : s1 ≠ s2)
    (h1 : _validate_guid s1 = true)
    (h2 : _validate_guid s2 = true)
    (hsame : pyUuidValue s1 = pyUuidValue s2) :
    lookupM (get_or_create_session
        (get_or_create_session SessionManager.init s1 now1).1
        s2 now2).1._sessions s1 =
      some { session_id := s1, last_accessed := now1 } ∧
    lookupM (get_or_create_session
        (get_or_create_session SessionManager.init s1 now1).1
        s2 now2).1._sessions s2 =
      some { session_id := s2, last_accessed := now2 } ∧
    ({ session_id := s1, last_accessed := now1 } : SessionState) ≠
      { session_id := s2, last_accessed := now2 } := by
  have hm1 : (get_or_create_session SessionManager.init s1 now1).1._sessions
      = [(s1, { session_id := s1, last_accessed := now1 })] := by
    rw [resolve_new SessionManager.init now1 h1
      (by rfl : lookupM SessionManager.init._sessions s1 = none)]
    rfl
  have hlook2 : lookupM
      (get_or_create_session SessionManager.init s1 now1).1._sessions s2
      = none := by
    rw [hm1]
    simp [lookupM, hne]
  have hm2 : (get_or_create_session
        (get_or_create_session SessionManager.init s1 now1).1
        s2 now2).1._sessions =
      insertM
        (get_or_create_session SessionManager.init s1 now1).1._sessions
        s2 { session_id := s2, last_accessed := now2 } := by
    rw [resolve_new
      (get_or_create_session SessionManager.init s1 now1).1 now2 h2
      hlook2]
  refine ⟨?_, ?_, ?_⟩
  · rw [hm2, lookupM_insertM_of_ne _ _ hne, hm1]
    simp [lookupM]
  · rw [hm2]
    exact lookupM_insertM_self _ _ _
  · intro hcontra
    exact hne (congrArg SessionState.session_id hcontra)

/-- C9 witness: the lower-case and upper-case spellings of one GUID
value, resolved in sequence. -/
theorem raw_string_keys_distinct_records_witness :
    lookupM (get_or_create_session
        (get_or_create_session SessionManager.init wGuid 3).1
        wGuidUpper 4).1._sessions wGuid =
      some { session_id := wGuid, last_accessed := 3 } ∧
    lookupM (get_or_create_session
        (get_or_create_session SessionManager.init wGuid 3).1
        wGuidUpper 4).1._sessions wGuidUpper =
      some { session_id := wGuidUpper, last_accessed := 4 } ∧
    ({ session_id := wGuid, last_accessed := 3 } : SessionState) ≠
      { session_id := wGuidUpper, last_accessed := 4 } :=
  raw_string_keys_distinct_records wGuid wGuidUpper 3 4
    (by decide) (by decide) (by decide) (by decide)

/-- C10: list_sessions returns the manager state unchanged next to its
rows; a record already past the idle timeout still appears in the rows
with is_expired true, and its entry is still in the mapping, its
fields untouched. -/
theorem list_sessions_pure_snapshot
    (mgr : SessionManager) (now : ℤ) :
    (list_sessions mgr now).2 = mgr ∧
    (∀ (sid : String) (st : SessionState),
      lookupM mgr._sessions sid = some st →
      st.is_expired now SESSION_TIMEOUT_MINUTES = true →
        ({ session_id := st.session_id,
           last_accessed := st.last_accessed,
           is_expired := true } : SessionSummary) ∈
          (list_sessions mgr now).1 ∧
        lookupM (list_sessions mgr now).2._sessions sid = some st) := by
  refine ⟨rfl, fun sid st hlook hexp => ⟨?_, hlook⟩⟩
  refine List.mem_map.mpr ⟨(sid, st), lookupM_mem hlook, ?_⟩
  simp [hexp]

/-- C10 witness: the expired record of wMgr2 appears in the listing
but survives it, and the whole manager state is returned unchanged. -/
theorem list_sessions_pure_snapshot_witness :
    (list_sessions wMgr2 1800000001).2 = wMgr2 ∧
    (({ session_id := wGuid, last_accessed := 0, is_expired := true } :
        SessionSummary) ∈ (list_sessions wMgr2 1800000001).1 ∧
     lookupM (list_sessions wMgr2 1800000001).2._sessions wGuid =
       some { session_id := wGuid, last_accessed := 0 }) :=
  ⟨(list_sessions_pure_snapshot wMgr2 1800000001).1,
   (list_sessions_pure_snapshot wMgr2 1800000001).2 wGuid
     { session_id := wGuid, last_accessed := 0 } (by decide) (by decide)⟩

end SessionMgr
